import Mathlib

/-
Verification development for the dynamic-tool execution engine
(`backend/src/dynamic_tools`): a shallow embedding of the registry,
executor, generic API tool, HTTP retry layer and workflow orchestrator,
together with proofs of the behavioural properties stated in the
specification.

Python values are modelled by `PyVal` (JSON-like data plus an opaque
constructor for pydantic model instances), Python exceptions by `PyExc`,
and fallible code by `Except PyExc`.  Dictionaries are association lists
in insertion order, as in CPython.  Wall-clock timing fields are kept in
the result records but pinned to `0`, since elapsed time is not part of
any verified property.
-/

set_option maxHeartbeats 1000000

/-- Model of a Python runtime value as it flows through the engine:
the JSON scalars/containers plus `baseModel`, an opaque stand-in for a
pydantic `BaseModel` instance (only its identity matters to the code
under verification).  Python floats are modelled as rationals; every
float literal appearing in the repository is decimal and hence exact. -/
inductive PyVal where
  | none
  | bool (b : Bool)
  | int (n : Int)
  | float (q : ℚ)
  | str (s : String)
  | list (xs : List PyVal)
  | dict (kvs : List (String × PyVal))
  | baseModel (tag : String)

/-- Model of the Python exceptions raised by the code under verification. -/
inductive PyExc where
  | toolRegistrationError (msg : String)
  | validationError (msg : String)
  | typeError (msg : String)
  | valueError (msg : String)
  | httpStatusError (status : Nat)
  | timeoutException
  | networkError
  | attributeError (msg : String)
  | exc (msg : String)

/-- Human-readable message of an exception, as used by the `str(e)`
interpolations in the source (exact text is not load-bearing for any
claim; only non-emptiness is). -/
def PyExc.message : PyExc → String
  | .toolRegistrationError m => m
  | .validationError m => m
  | .typeError m => m
  | .valueError m => m
  | .httpStatusError s => "Server error: " ++ toString s
  | .timeoutException => "timeout"
  | .networkError => "network error"
  | .attributeError m => m
  | .exc m => m

/-- Lookup in a Python dict modelled as an association list
(`d.get(k)` returning `None` when absent is `(pyGet kvs k).getD .none`). -/
def pyLookup (kvs : List (String × PyVal)) (k : String) : Option PyVal :=
  kvs.lookup k

/-- Python `d.get(key)` with `None` default. -/
def pyGet (kvs : List (String × PyVal)) (k : String) : PyVal :=
  (pyLookup kvs k).getD .none

/-- Python `key in d` membership test on a dict. -/
def pyHasKey (kvs : List (String × PyVal)) (k : String) : Bool :=
  (pyLookup kvs k).isSome

/-- Python `s.split(c)` for a one-character separator, by direct recursion
over the characters (same semantics as CPython: the empty string splits
to `[""]`, a trailing separator yields a trailing empty piece). -/
def pySplitAux (c : Char) : List Char → List Char → List String
  | [], acc => [String.mk acc.reverse]
  | x :: xs, acc =>
      if x = c then String.mk acc.reverse :: pySplitAux c xs []
      else pySplitAux c xs (x :: acc)

/-- Python `s.split(c)` (one-character separator). -/
def pySplit (s : String) (c : Char) : List String :=
  pySplitAux c s.data []

/-- Python `s.startswith(p)`, via the character lists of the strings. -/
def pyStartsWith (s p : String) : Bool :=
  p.data.isPrefixOf s.data

/-- Python `s.endswith(p)`, via the character lists of the strings. -/
def pyEndsWith (s p : String) : Bool :=
  p.data.isSuffixOf s.data

/-- Python slicing `s[n:]`. -/
def pyDrop (s : String) (n : Nat) : String :=
  String.mk (s.data.drop n)

/-- Python slicing `s[:-n]` (drop the last `n` characters). -/
def pyDropRight (s : String) (n : Nat) : String :=
  String.mk (s.data.take (s.data.length - n))

/- ===================================================================
   HTTP Execution Service (`services/http_client.py`)
   =================================================================== -/

/-- State of `HTTPClientService` as set by `__init__` (timeout in seconds,
`max_retries`; defaults `30.0` and `3`). -/
structure HTTPClientService where
  timeout : ℚ
  max_retries : Nat

/-- One backend interaction as seen by `client.request` inside a single
attempt of `_execute_with_retry`: either a response with a status code,
or an httpx timeout / network-level failure. -/
inductive AttemptOutcome where
  | response (status : Nat)
  | timeout
  | networkError

/-- Body of `HTTPClientService._execute_with_retry` for one attempt:
`client.request` either raises (timeout / network error) or returns a
response; for `status_code >= 500` the code calls `raise_for_status()`
and re-raises the resulting `httpx.HTTPStatusError`.  httpx does not
raise `HTTPStatusError` from `client.request` itself, so the
`except httpx.HTTPStatusError` branch that returns `e.response` for a
4xx is reachable only from `raise_for_status`, i.e. never for a status
below 500: a 4xx response is returned as-is from the `try` body. -/
def singleAttempt : AttemptOutcome → Except PyExc Nat
  | .response s => if 500 ≤ s then .error (.httpStatusError s) else .ok s
  | .timeout => .error .timeoutException
  | .networkError => .error .networkError

/-- Retry predicate of the tenacity decorator on `_execute_with_retry`:
`retry_if_exception_type((httpx.TimeoutException, httpx.NetworkError,
httpx.HTTPStatusError))`. -/
def tenacityRetryable : PyExc → Bool
  | .timeoutException => true
  | .networkError => true
  | .httpStatusError _ => true
  | _ => false

/-- Attempt bound of the tenacity decorator on `_execute_with_retry`.
The decorator is written `stop=stop_after_attempt(3)` with a literal 3:
it is evaluated at class-definition time and does not (and cannot)
consult `self.max_retries`, which the constructor stores but the retry
logic never reads. -/
def tenacityStopAfterAttempt : Nat := 3

/-- Tenacity driver loop: run attempts until one succeeds, the exception
is not retryable, or the attempt bound is reached; `reraise=True` makes
the final failure re-raise the last exception.  Returns the outcome and
the number of attempts made.  `i` is the 1-based index of the current
attempt, `fuel` the number of attempts still allowed. -/
def tenacityLoop (backend : Nat → AttemptOutcome) : Nat → Nat → Except PyExc Nat × Nat
  | 0, i => (.error (.exc "retry bound must be positive"), i - 1)
  | fuel + 1, i =>
      match singleAttempt (backend i) with
      | .ok r => (.ok r, i)
      | .error e =>
          if fuel ≠ 0 && tenacityRetryable e then
            tenacityLoop backend fuel (i + 1)
          else
            (.error e, i)

/-- `HTTPClientService._execute_with_retry` under its tenacity decorator,
against a backend described by the outcome of each attempt.  Returns the
final result together with the number of attempts made.  The service
object is an argument (as `self` is) but, faithfully to the source, the
retry bound is the literal `tenacityStopAfterAttempt`, not
`svc.max_retries`. -/
def executeWithRetry (_svc : HTTPClientService) (backend : Nat → AttemptOutcome) :
    Except PyExc Nat × Nat :=
  tenacityLoop backend tenacityStopAfterAttempt 1

/-- Number of attempts `_execute_with_retry` makes against a backend. -/
def attemptsMade (svc : HTTPClientService) (backend : Nat → AttemptOutcome) : Nat :=
  (executeWithRetry svc backend).2

/- ===================================================================
   Tool Registry (`core/registry.py`)
   =================================================================== -/

/-- `ToolDefinition` from `core/base.py` (the `tags` field is carried for
completeness; `to_openai_tool` is not needed by any claim). -/
structure ToolDefinition where
  name : String
  description : String
  input_schema : PyVal
  output_schema : PyVal
  tags : List String := []

/-- A stored tool implementation: the attributes of the `BaseTool`
protocol (`name`, `description`, the two schemas) together with the
behaviour of awaiting its invocation, modelled as a function from the
(validated) keyword arguments to a result or a raised exception. -/
structure Tool where
  name : String
  description : String
  input_schema : PyVal
  output_schema : PyVal
  run : List (String × PyVal) → Except PyExc PyVal

/-- The argument passed to `ToolRegistry.register`, classified by the two
attribute probes the source performs: an object with a `_tool_definition`
attribute (a decorated function), an object satisfying the `BaseTool`
protocol, or anything else. -/
inductive ToolObj where
  | decorated (d : ToolDefinition) (run : List (String × PyVal) → Except PyExc PyVal)
  | base (t : Tool)
  | other

/-- Name under which a `ToolObj` would be registered, when it has one. -/
def ToolObj.regName : ToolObj → Option String
  | .decorated d _ => some d.name
  | .base t => some t.name
  | .other => Option.none

/-- State of a `ToolRegistry`: the `_tools` and `_definitions` dicts,
as association lists in insertion order. -/
structure ToolRegistry where
  tools : List (String × Tool)
  definitions : List (String × ToolDefinition)

/-- Registry with no tools (the state built by `__init__`). -/
def ToolRegistry.empty : ToolRegistry := ⟨[], []⟩

/-- The stored implementation view of a decorated function: the callable
is stored as-is in `_tools`; its protocol attributes coincide with the
attached definition. -/
def decoratedAsTool (d : ToolDefinition)
    (run : List (String × PyVal) → Except PyExc PyVal) : Tool :=
  ⟨d.name, d.description, d.input_schema, d.output_schema, run⟩

/-- The definition `register` synthesizes for a `BaseTool` object from
its `name`, `description`, `input_schema` and `output_schema` attributes. -/
def baseToolDefinition (t : Tool) : ToolDefinition :=
  ⟨t.name, t.description, t.input_schema, t.output_schema, []⟩

/-- `ToolRegistry.register`: handles decorated functions first, then
`BaseTool` protocol objects, and raises `ToolRegistrationError` for a
duplicate name or an argument of neither supported shape.  New entries
are appended, matching CPython dict insertion order. -/
def ToolRegistry.register (reg : ToolRegistry) : ToolObj → Except PyExc ToolRegistry
  | .decorated d run =>
      if (reg.tools.lookup d.name).isSome then
        .error (.toolRegistrationError ("Tool " ++ d.name ++ " already registered"))
      else
        .ok ⟨reg.tools ++ [(d.name, decoratedAsTool d run)],
             reg.definitions ++ [(d.name, d)]⟩
  | .base t =>
      if (reg.tools.lookup t.name).isSome then
        .error (.toolRegistrationError ("Tool " ++ t.name ++ " already registered"))
      else
        .ok ⟨reg.tools ++ [(t.name, t)],
             reg.definitions ++ [(t.name, baseToolDefinition t)]⟩
  | .other =>
      .error (.toolRegistrationError
        "Tool must be either a decorated function or implement BaseTool protocol")

/-- `ToolRegistry.unregister`: raises if the name is absent, otherwise
deletes the entry from both dicts. -/
def ToolRegistry.unregister (reg : ToolRegistry) (n : String) :
    Except PyExc ToolRegistry :=
  if (reg.tools.lookup n).isSome then
    .ok ⟨reg.tools.filter (fun p => p.1 ≠ n), reg.definitions.filter (fun p => p.1 ≠ n)⟩
  else
    .error (.toolRegistrationError ("Tool " ++ n ++ " not registered"))

/-- `ToolRegistry.get`: raises `ToolRegistrationError` when absent. -/
def ToolRegistry.get (reg : ToolRegistry) (n : String) : Except PyExc Tool :=
  match reg.tools.lookup n with
  | some t => .ok t
  | Option.none => .error (.toolRegistrationError ("Tool " ++ n ++ " not found"))

/-- `ToolRegistry.get_definition`: raises `ToolRegistrationError` when
absent. -/
def ToolRegistry.getDefinition (reg : ToolRegistry) (n : String) :
    Except PyExc ToolDefinition :=
  match reg.definitions.lookup n with
  | some d => .ok d
  | Option.none => .error (.toolRegistrationError ("Tool " ++ n ++ " not found"))

/-- `ToolRegistry.get_multiple`: the loop over `tool_names` appends each
looked-up tool to `found_tools` and each absent name to `missing_names`;
this recursion produces exactly those lists. -/
def ToolRegistry.getMultiple (reg : ToolRegistry) :
    List String → List Tool × List String
  | [] => ([], [])
  | n :: rest =>
      let (found, missing) := reg.getMultiple rest
      match reg.tools.lookup n with
      | some t => (t :: found, missing)
      | Option.none => (found, n :: missing)

/-- `ToolRegistry.clear`: empties both dicts. -/
def ToolRegistry.clear (_reg : ToolRegistry) : ToolRegistry := ⟨[], []⟩

/-- `ToolRegistry.has_tool` (also backing `__contains__`). -/
def ToolRegistry.hasTool (reg : ToolRegistry) (n : String) : Bool :=
  (reg.tools.lookup n).isSome

/-- `ToolRegistry.list_tools`: the key list of `_tools`. -/
def ToolRegistry.listTools (reg : ToolRegistry) : List String :=
  reg.tools.map Prod.fst

/-- `ToolRegistry.list_definitions`: the value list of `_definitions`. -/
def ToolRegistry.listDefinitions (reg : ToolRegistry) : List ToolDefinition :=
  reg.definitions.map Prod.snd

/-- Well-formedness of a registry state: every stored implementation is
keyed by its own name (registration only ever inserts a tool under the
name taken from that tool), and keys are not duplicated (dict keys). -/
def ToolRegistry.WF (reg : ToolRegistry) : Prop :=
  (∀ p ∈ reg.tools, (p.2).name = p.1) ∧ (reg.tools.map Prod.fst).Nodup

/-- One mutating or read-only operation on a registry, for stating the
invariant over arbitrary operation sequences.  `query` stands for the
read-only calls (`get`, `get_definition`, `get_multiple`, `list_tools`,
`list_definitions`, `get_openai_tools`, `has_tool`, `len`, `contains`),
none of which touch the two dicts. -/
inductive RegOp where
  | register (obj : ToolObj)
  | unregister (n : String)
  | clear
  | query

/-- Effect of one operation on the registry state.  A raised
`ToolRegistrationError` propagates to the caller before any mutation, so
the state is unchanged on the error branches. -/
def RegOp.apply (reg : ToolRegistry) : RegOp → ToolRegistry
  | .register obj =>
      match reg.register obj with
      | .ok reg2 => reg2
      | .error _ => reg
  | .unregister n =>
      match reg.unregister n with
      | .ok reg2 => reg2
      | .error _ => reg
  | .clear => reg.clear
  | .query => reg

/-- State after running a sequence of operations from the empty registry. -/
def runRegOps (ops : List RegOp) : ToolRegistry :=
  ops.foldl RegOp.apply ToolRegistry.empty

/- ===================================================================
   Tool Executor (`core/executor.py`)
   =================================================================== -/

/-- `ToolResult` from `core/base.py`.  `execution_time_ms` is measured
with a wall clock in the source; timing is outside the model, so the
field is pinned to `0`. -/
structure ToolResult where
  tool_name : String
  success : Bool
  data : PyVal := .none
  error : Option String := Option.none
  execution_time_ms : ℚ := 0

/-- Digits of a decimal numeral, as a natural number, when every
character is a digit and there is at least one. -/
def decDigits : List Char → Option Nat
  | [] => Option.none
  | cs => cs.foldl (fun acc c =>
      match acc with
      | Option.none => Option.none
      | some n => if c.isDigit then some (n * 10 + (c.toNat - 48)) else Option.none)
      (some 0)

/-- Python `float(s)` on a string, for the sign + decimal-point numeral
forms (the only forms the verified properties exercise; exotic inputs
such as exponents or `inf` are conservatively rejected, which only makes
the tolerant fallback branches fire, never a spurious success). -/
def pyFloatOfString (s : String) : Option ℚ :=
  let cs := s.data
  let (neg, cs) :=
    match cs with
    | '-' :: rest => (true, rest)
    | '+' :: rest => (false, rest)
    | _ => (false, cs)
  let mk (q : ℚ) : Option ℚ := some (if neg then -q else q)
  match pySplitAux '.' cs [] with
  | [intPart] =>
      match decDigits intPart.data with
      | some n => mk n
      | Option.none => Option.none
  | [intPart, fracPart] =>
      match decDigits intPart.data, decDigits fracPart.data with
      | some n, some f => mk (n + (f : ℚ) / ((10 : ℚ) ^ fracPart.data.length))
      | _, _ => Option.none
  | _ => Option.none

/-- Python `float(value)`: numbers and booleans convert, numeric strings
parse, everything else raises (`TypeError`/`ValueError`), modelled as
`Option.none`. -/
def pyFloat : PyVal → Option ℚ
  | .int n => some n
  | .float q => some q
  | .bool b => some (if b then 1 else 0)
  | .str s => pyFloatOfString s
  | _ => Option.none

/-- Python `int(q)` on a float: truncation toward zero. -/
def pyIntTrunc (q : ℚ) : Int :=
  q.num.tdiv q.den

/-- Per-field check of the pydantic model that
`ToolExecutor._validate_inputs` synthesizes with `create_model`, for
the Python target type produced by `_json_type_to_python`.  This models
pydantic v2 lax validation (the repository pins pydantic v2 — it imports
`pydantic_core` in `models/http_spec.py`): exact type matches are
accepted, numeric strings coerce to numbers, integral floats coerce to
int, int coerces to float; `bool` is rejected for numeric fields in v2.
The theorems below depend only on whether validation succeeds or fails,
and their witnesses use exactly-typed or missing-required arguments,
whose verdicts are version-independent. -/
def pydanticFieldOk (pyType : String) (v : PyVal) : Option PyVal :=
  match pyType, v with
  | "str", .str s => some (.str s)
  | "int", .int n => some (.int n)
  | "int", .float q => if q.den = 1 then some (.int q.num) else Option.none
  | "int", .str s =>
      match pyFloatOfString s with
      | some q => if q.den = 1 then some (.int q.num) else Option.none
      | Option.none => Option.none
  | "float", .float q => some (.float q)
  | "float", .int n => some (.float n)
  | "float", .str s =>
      match pyFloatOfString s with
      | some q => some (.float q)
      | Option.none => Option.none
  | "bool", .bool b => some (.bool b)
  | "bool", .int n => if n = 0 then some (.bool false)
      else if n = 1 then some (.bool true) else Option.none
  | "list", .list xs => some (.list xs)
  | "dict", .dict kvs => some (.dict kvs)
  | _, _ => Option.none

/-- `ToolExecutor._json_type_to_python`: map a JSON-schema type name to
the Python type used for the synthesized validation model (default and
unknown types map to `str`). -/
def jsonTypeToPython (fieldSchema : PyVal) : String :=
  let jsonType :=
    match fieldSchema with
    | .dict kvs =>
        match pyLookup kvs "type" with
        | some (.str t) => t
        | _ => "string"
    | _ => "string"
  match jsonType with
  | "string" => "str"
  | "integer" => "int"
  | "number" => "float"
  | "boolean" => "bool"
  | "array" => "list"
  | "object" => "dict"
  | _ => "str"

/-- Validation of one synthesized model field: a missing required field
is an error; a missing optional field takes the (unvalidated) default
`None`; a present field must pass the per-type check. -/
def validateOneField (args : List (String × PyVal)) (required : List String)
    (fieldName : String) (fieldSchema : PyVal) : Except PyExc PyVal :=
  match pyLookup args fieldName with
  | some v =>
      match pydanticFieldOk (jsonTypeToPython fieldSchema) v with
      | some v2 => .ok v2
      | Option.none => .error (.validationError ("invalid value for field " ++ fieldName))
  | Option.none =>
      if required.contains fieldName then
        .error (.validationError ("Field required: " ++ fieldName))
      else
        .ok .none

/-- The `required` list of a schema dict (absent or ill-typed means
no required fields, as `input_schema.get("required", [])` would yield). -/
def schemaRequired (schema : List (String × PyVal)) : List String :=
  match pyLookup schema "required" with
  | some (.list xs) => xs.filterMap (fun v =>
      match v with
      | .str s => some s
      | _ => Option.none)
  | _ => []

/-- `ToolExecutor._validate_inputs`: when the schema has a `properties`
key, synthesize a pydantic model over those properties and validate the
arguments with it; `model_dump()` then returns every declared field (in
property order, extras dropped, absent optional fields as `None`).
Schemas without `properties` pass the arguments through unchanged. -/
def validateInputs (schema : PyVal) (args : List (String × PyVal)) :
    Except PyExc (List (String × PyVal)) :=
  match schema with
  | .dict kvs =>
      match pyLookup kvs "properties" with
      | some (.dict props) =>
          let required := schemaRequired kvs
          (props.foldr (fun p acc =>
            match acc with
            | .error e => .error e
            | .ok rest =>
                match validateOneField args required p.1 p.2 with
                | .ok v => .ok ((p.1, v) :: rest)
                | .error e => .error e) (.ok []))
      | some _ => .error (.attributeError "properties value has no items method")
      | Option.none => .ok args
  | _ => .ok args

/-- `ToolExecutor._validate_outputs`.  A pydantic `BaseModel` result is
returned as-is; otherwise the result is checked against
`output_schema["type"]`.  The mismatch branches in the source are
written `raise ValidationError(f"Expected ..., got ...")` — but
pydantic v2 `ValidationError` (the class imported at the top of
`executor.py`; the repository is on pydantic v2, importing
`pydantic_core` in `models/http_spec.py`) has no public constructor, so
evaluating `ValidationError(msg)` itself raises a `TypeError`.  The
exception that actually leaves `_validate_outputs` on a mismatch is
therefore a `TypeError`, not a `ValidationError`.  Python `isinstance`
quirks are preserved: `bool` is a subclass of `int`, so booleans pass
the `integer` and `number` checks. -/
def validateOutputs (outputSchema : PyVal) (result : PyVal) : Except PyExc PyVal :=
  match result with
  | .baseModel tag => .ok (.baseModel tag)
  | _ =>
    let schemaType :=
      match outputSchema with
      | .dict kvs =>
          match pyLookup kvs "type" with
          | some (.str t) => some t
          | _ => Option.none
      | _ => Option.none
    let ctorFailure : PyExc :=
      .typeError "ValidationError cannot be constructed from a message string"
    match schemaType with
    | Option.none => .ok result
    | some t =>
        if t = "string" then
          match result with
          | .str _ => .ok result
          | _ => .error ctorFailure
        else if t = "integer" then
          match result with
          | .int _ => .ok result
          | .bool _ => .ok result
          | _ => .error ctorFailure
        else if t = "number" then
          match result with
          | .int _ => .ok result
          | .bool _ => .ok result
          | .float _ => .ok result
          | _ => .error ctorFailure
        else if t = "boolean" then
          match result with
          | .bool _ => .ok result
          | _ => .error ctorFailure
        else if t = "array" then
          match result with
          | .list _ => .ok result
          | _ => .error ctorFailure
        else if t = "object" then
          match result with
          | .dict _ => .ok result
          | _ => .error ctorFailure
        else .ok result

/-- Failed `ToolResult` as built in the handlers of `execute`. -/
def failResult (toolName msg : String) : ToolResult :=
  { tool_name := toolName, success := false, error := some msg }

/-- Body of the outer `try` of `ToolExecutor.execute`: registry lookups,
input validation with its `except ValidationError` handler, tool
invocation with its `except Exception` handler, and best-effort output
validation whose handler catches only `ValidationError`.  Any other
exception (for instance the `TypeError` from the mismatch branches of
`_validate_outputs`) escapes to the caller of this body. -/
def executeInner (reg : ToolRegistry) (toolName : String)
    (args : List (String × PyVal)) : Except PyExc ToolResult :=
  match reg.get toolName with
  | .error e => .error e
  | .ok tool =>
  match reg.getDefinition toolName with
  | .error e => .error e
  | .ok toolDef =>
  match validateInputs toolDef.input_schema args with
  | .error (.validationError m) =>
      .ok (failResult toolName ("Input validation error: " ++ m))
  | .error e => .error e
  | .ok validatedArgs =>
  match tool.run validatedArgs with
  | .error e =>
      .ok (failResult toolName ("Execution error: " ++ e.message))
  | .ok result =>
  match validateOutputs toolDef.output_schema result with
  | .ok validatedResult =>
      .ok { tool_name := toolName, success := true, data := validatedResult }
  | .error (.validationError _) =>
      .ok { tool_name := toolName, success := true, data := result }
  | .error e => .error e

/-- `ToolExecutor.execute`: the outer `except Exception` handler turns
any escaped exception into a failed `ToolResult`; the function is total,
which is the never-raises guarantee of the executor. -/
def executorExecute (reg : ToolRegistry) (toolName : String)
    (args : List (String × PyVal)) : ToolResult :=
  match executeInner reg toolName args with
  | .ok r => r
  | .error e => failResult toolName ("Unexpected error: " ++ e.message)

/- ===================================================================
   Generic API Tool (`factory/api_tool.py`)
   =================================================================== -/

/-- `FieldMapping` from `models/tool_config.py` (the fields read by
`_transform_response`; `input_to_params` and `input_to_body` feed the
request-building helpers, which no claim is about). -/
structure FieldMapping where
  input_to_params : List (String × String) := []
  input_to_body : List (String × String) := []
  response_to_output : List (String × String) := []
  response_path : Option String := Option.none

/-- The slice of `ToolConfig` that `_transform_response` and
`_convert_type` consult: the field mapping and the output schema. -/
structure ApiToolConfig where
  mapping : FieldMapping
  output_schema : PyVal

/-- Python `value is not None` test. -/
def PyVal.isNotNone : PyVal → Bool
  | .none => false
  | _ => true

/-- Descent loop over `response_field.split('.')` in
`_transform_response`: `value = value.get(key)` while the working value
is a dict, otherwise `value = None; break`.  A key absent from a dict
yields `None`, and on the next segment the non-dict test fires. -/
def descendField : PyVal → List String → PyVal
  | v, [] => v
  | .dict kvs, k :: rest => descendField (pyGet kvs k) rest
  | _, _ :: _ => .none

/-- Descent loop over `response_path.split('.')` in
`_transform_response`: `data = data.get(key, {})` with no dict check —
when the working value stops being a dict, `.get` raises
`AttributeError` (which would escape `execute`). -/
def descendPathDefault : PyVal → List String → Except PyExc PyVal
  | v, [] => .ok v
  | .dict kvs, k :: rest =>
      descendPathDefault ((pyLookup kvs k).getD (.dict [])) rest
  | _, _ :: _ => .error (.attributeError "value has no get method")

/-- `GenericApiTool._convert_type`: `number` converts through
`float(value)` and `integer` through `int(float(value))`, falling back
to the raw value when the conversion raises; every other target type
passes the value through unchanged. -/
def convertType (value : PyVal) (targetType : Option String) : PyVal :=
  if targetType = some "number" ∨ targetType = some "integer" then
    match pyFloat value with
    | some q => if targetType = some "number" then .float q else .int (pyIntTrunc q)
    | Option.none => value
  else value

/-- Declared type of one output field:
`output_schema.get("properties", {}).get(output_field, {}).get("type")`. -/
def outputFieldType (outputSchema : PyVal) (field : String) : Option String :=
  let props :=
    match outputSchema with
    | .dict kvs => pyGet kvs "properties"
    | _ => .none
  let fieldSchema :=
    match props with
    | .dict kvs => pyGet kvs field
    | _ => .dict []
  match fieldSchema with
  | .dict kvs =>
      match pyLookup kvs "type" with
      | some (.str t) => some t
      | _ => Option.none
  | _ => Option.none

/-- Output-building loop of `_transform_response`: for each
`(output_field, response_field)` of `mapping.response_to_output` in dict
order, descend the dot-split response field inside the working object
and, when the value is not `None`, store its type-converted form. -/
def mapOutputFields (cfg : ApiToolConfig) (data : PyVal) :
    List (String × String) → List (String × PyVal)
  | [] => []
  | (outputField, responseField) :: rest =>
      if (descendField data (pySplit responseField '.')).isNotNone then
        (outputField,
          convertType (descendField data (pySplit responseField '.'))
            (outputFieldType cfg.output_schema outputField))
          :: mapOutputFields cfg data rest
      else mapOutputFields cfg data rest

/-- Working object of `_transform_response`: the response body, descended
through `response_path` when that is set and non-empty (`if
self.config.mapping.response_path:` is a truthiness test, so `None` and
`""` both skip the descent). -/
def workingObject (cfg : ApiToolConfig) (responseData : PyVal) : Except PyExc PyVal :=
  match cfg.mapping.response_path with
  | Option.none => .ok responseData
  | some p =>
      if p = "" then .ok responseData
      else descendPathDefault responseData (pySplit p '.')

/-- `GenericApiTool._transform_response`: descend `response_path`, then
build the output dict from `response_to_output`. -/
def transformResponse (cfg : ApiToolConfig) (responseData : PyVal) :
    Except PyExc (List (String × PyVal)) :=
  match workingObject cfg responseData with
  | .error e => .error e
  | .ok data => .ok (mapOutputFields cfg data cfg.mapping.response_to_output)

/-- Process environment for secret resolution: `os.getenv` is lookup in
an association list (a set-but-empty variable is an entry with value
`""`). -/
def envGet (env : List (String × String)) (name : String) : Option String :=
  env.lookup name

/-- `GenericApiTool._resolve_secret`: falsy references (`None` or `""`)
yield `""`; a reference that starts with the two characters dollar and
open-brace and ends with close-brace is interpolated from the
environment, degrading to `""` (with a logged warning) when the variable
is unset or empty; anything else is returned unchanged as a literal
secret value. -/
def resolveSecret (env : List (String × String)) (secretRef : Option String) : String :=
  match secretRef with
  | Option.none => ""
  | some s =>
      if s = "" then ""
      else if pyStartsWith s "$\x7b" && pyEndsWith s "\x7d" then
        let envVar := pyDropRight (pyDrop s 2) 1
        match envGet env envVar with
        | Option.none => ""
        | some v => if v = "" then "" else v
      else s

/-- The mapping of the worked Alpha Vantage example in the specification:
`response_path = "Global Quote"`, `response_to_output` sending `price`
to the response field named `05. price`, and an output schema declaring
`price` as a `number`. -/
def stockQuoteCfg : ApiToolConfig :=
  { mapping :=
      { response_to_output := [("price", "05. price")],
        response_path := some "Global Quote" },
    output_schema :=
      .dict [("type", .str "object"),
             ("properties", .dict [("price", .dict [("type", .str "number")])])] }

/-- The mocked backend body of the worked example:
the object under key `Global Quote` maps the field named `05. price`
to the string `"150.25"`. -/
def stockQuoteBody : PyVal :=
  .dict [("Global Quote", .dict [("05. price", .str "150.25")])]

/- ===================================================================
   Workflow Orchestrator (`services/workflow_orchestrator.py`)
   =================================================================== -/

/-- `HTTPRequestSpec` from `models/http_spec.py`. -/
structure HTTPRequestSpec where
  method : String
  url : String
  headers : Option (List (String × String)) := Option.none
  query_params : Option (List (String × String)) := Option.none
  body : Option PyVal := Option.none

/-- `HTTPResponseSpec` from `models/http_spec.py` (timing pinned to 0,
as elsewhere). -/
structure HTTPResponseSpec where
  status_code : Nat
  headers : List (String × String) := []
  body : PyVal := .none
  execution_time_ms : ℚ := 0

/-- `PromptResponse` from `models/api_requests.py`: LLM reply content
plus its discriminator (`"text"` or `"http_spec"`). -/
structure PromptResponse where
  content : PyVal
  kind : String

/-- `WorkflowRequest` from `models/api_requests.py`. -/
structure WorkflowRequest where
  user_instructions : String
  tool_ids : List String
  format_response : Bool := false
  response_format_instructions : Option String := Option.none

/-- `WorkflowResponse` from `models/api_requests.py`.  `http_spec` and
`raw_response` carry the spec records themselves (the source stores
their `model_dump()` dicts, an invertible re-encoding). -/
structure WorkflowResponse where
  status : String
  selected_tool : Option String := Option.none
  http_spec : Option HTTPRequestSpec := Option.none
  raw_response : Option HTTPResponseSpec := Option.none
  formatted_response : Option String := Option.none
  error : Option String := Option.none
  error_stage : Option String := Option.none

/-- A tool row of the external database, as consumed by
`_retrieve_tools` (`name`, `description`, `url`, `method`). -/
structure DbTool where
  name : String
  description : Option String := Option.none
  url : String
  method : Option String := Option.none

/-- The `SimpleTool` wrapper `_retrieve_tools` builds around a converted
database tool: a name, a description and an api block. -/
structure SimpleDbTool where
  name : String
  description : String
  base_url : String
  method : String

/-- A found tool flowing through the workflow: either a database-backed
`SimpleTool` (which exposes a `config.api`) or a tool object from the
registry fallback.  Registry objects are modelled without a `config`
attribute; a `GenericApiTool` instance stored in the registry would
additionally expose one, which only changes the rendered catalog text,
something no verified property depends on. -/
inductive FoundTool where
  | dbTool (t : SimpleDbTool)
  | registryTool (t : Tool)

/-- Name attribute of a found tool. -/
def FoundTool.name : FoundTool → String
  | .dbTool t => t.name
  | .registryTool t => t.name

/-- Description attribute of a found tool. -/
def FoundTool.description : FoundTool → String
  | .dbTool t => t.description
  | .registryTool t => t.description

/-- Python `needle in haystack` on strings (substring containment). -/
def charsContain (needle : List Char) : List Char → Bool
  | [] => needle.isPrefixOf []
  | c :: rest => needle.isPrefixOf (c :: rest) || charsContain needle rest

/-- Python `needle in haystack` on strings. -/
def pyInStr (needle hay : String) : Bool :=
  charsContain needle.data hay.data

/-- Environment-visible collaborators of one `execute_workflow` run: the
registry (fallback catalog), the optional database service with the
outcome of its `get_tools()` call, and the awaited outcomes of the three
network calls the run can make — `prompt_mcp` (fed the user instructions
and rendered catalog), the HTTP execution, and `prompt_normal` (fed the
formatting instructions and context). -/
structure WorkflowEnv where
  registry : ToolRegistry
  dbTools : Option (Except PyExc (List DbTool))
  promptMcp : String → String → Except PyExc PromptResponse
  httpExec : HTTPRequestSpec → Except PyExc HTTPResponseSpec
  promptNormal : String → String → Except PyExc String

/-- HTTP method names accepted by `HttpMethod[...]` lookup. -/
def httpMethodNames : List String := ["GET", "POST", "PUT", "PATCH", "DELETE"]

/-- Conversion of one database tool inside `_retrieve_tools`:
`HttpMethod[db_tool.method.upper()] if db_tool.method else HttpMethod.GET`;
a name not in the enum raises `KeyError`, and the per-tool handler skips
the tool. -/
def convertDbTool (t : DbTool) : Option SimpleDbTool :=
  let methodResult : Option String :=
    match t.method with
    | Option.none => some "GET"
    | some m =>
        if m = "" then some "GET"
        else if httpMethodNames.contains m.toUpper then some m.toUpper
        else Option.none
  match methodResult with
  | Option.none => Option.none
  | some meth =>
      some { name := t.name,
             description := t.description.getD ("API tool: " ++ t.name),
             base_url := t.url, method := meth }

/-- Database branch of `_retrieve_tools`: keep the rows whose name is
among the requested ids, convert each (skipping rows whose conversion
raises), and compute the missing ids. -/
def retrieveFromDb (allTools : List DbTool) (toolIds : List String) :
    List FoundTool × List String :=
  let found := allTools.filterMap (fun t =>
    if toolIds.contains t.name then (convertDbTool t).map FoundTool.dbTool
    else Option.none)
  let foundNames := found.map FoundTool.name
  (found, toolIds.filter (fun tid => ¬ foundNames.contains tid))

/-- `WorkflowOrchestrator._retrieve_tools`: prefer the database service
when present and its query succeeds; fall back to the registry's
`get_multiple` otherwise. -/
def retrieveTools (env : WorkflowEnv) (toolIds : List String) :
    List FoundTool × List String :=
  match env.dbTools with
  | some (.ok allTools) => retrieveFromDb allTools toolIds
  | some (.error _) =>
      let (found, missing) := env.registry.getMultiple toolIds
      (found.map FoundTool.registryTool, missing)
  | Option.none =>
      let (found, missing) := env.registry.getMultiple toolIds
      (found.map FoundTool.registryTool, missing)

/-- Catalog text of one tool as assembled by
`_format_tools_as_context`: header lines, the exact-endpoint block for
database-backed tools, and the schema sections for registry tools. -/
def formatOneTool : FoundTool → String
  | .dbTool t =>
      "Tool: " ++ t.name ++ "\nDescription: " ++ t.description ++
      "\nFULL URL TO USE: " ++ t.base_url ++ "\nHTTP Method: " ++ t.method
  | .registryTool t =>
      "Tool: " ++ t.name ++ "\nDescription: " ++ t.description

/-- `WorkflowOrchestrator._format_tools_as_context`: the rendered tool
catalog (`"No tools available."` for the empty list).  The rendered text
is consumed opaquely by the LLM collaborator; no verified property
depends on its exact wording, only on the function being total (the
source wraps each tool in a per-tool handler precisely so that this
stage cannot fail on a single bad tool). -/
def formatToolsAsContext (tools : List FoundTool) : String :=
  match tools with
  | [] => "No tools available."
  | ts => "Available Tools:\n" ++ String.intercalate "\n" (ts.map formatOneTool)

/-- Name tokens used by strategy 1 of `_extract_tool_name_from_spec`:
lower-case the name, turn underscores into spaces, split on whitespace. -/
def toolNameParts (name : String) : List String :=
  (pySplit ((name.toLower).replace "_" " ") ' ').filter (fun p => p ≠ "")

/-- Strategy 1 of `_extract_tool_name_from_spec`: the first tool one of
whose name tokens longer than three characters occurs in the
lower-cased URL. -/
def matchToolByUrl (urlLower : String) : List FoundTool → Option String
  | [] => Option.none
  | t :: rest =>
      if (toolNameParts t.name).any (fun part =>
            decide (3 < part.length) && pyInStr part urlLower) then
        some t.name
      else matchToolByUrl urlLower rest

/-- `WorkflowOrchestrator._extract_tool_name_from_spec`: URL-keyword
match first; otherwise the single available tool, or the first tool as
the documented fallback guess. -/
def extractToolNameFromSpec (spec : HTTPRequestSpec) (tools : List FoundTool) : String :=
  match tools with
  | [] => "unknown"
  | t0 :: rest =>
      match matchToolByUrl spec.url.toLower (t0 :: rest) with
      | some n => n
      | Option.none => if rest.isEmpty then t0.name else t0.name

/-- Reading of a dict of strings, as pydantic validates the optional
`headers` / `query_params` fields. -/
def asStrDict : PyVal → Option (List (String × String))
  | .dict kvs =>
      kvs.foldr (fun p acc =>
        match acc, p.2 with
        | some rest, .str s => some ((p.1, s) :: rest)
        | _, _ => Option.none) (some [])
  | _ => Option.none

/-- Allowed values of the `method` literal of `HTTPRequestSpec`. -/
def httpSpecMethods : List String :=
  ["GET", "POST", "PUT", "DELETE", "PATCH", "HEAD", "OPTIONS"]

/-- Validation performed by `HTTPRequestSpec(**content)` (pydantic v2):
the content must be a keyword dict, `method` one of the allowed
literals, `url` a non-empty string, `headers` / `query_params` absent,
`None`, or dicts of strings, `body` absent, `None`, a dict or a string;
unknown keys are ignored. -/
def parseHTTPRequestSpec (content : PyVal) : Except PyExc HTTPRequestSpec :=
  match content with
  | .dict kvs =>
      let methodVal :=
        match pyLookup kvs "method" with
        | some (.str m) => if httpSpecMethods.contains m then some m else Option.none
        | _ => Option.none
      let urlVal :=
        match pyLookup kvs "url" with
        | some (.str u) => if u = "" then Option.none else some u
        | _ => Option.none
      match methodVal, urlVal with
      | some m, some u =>
          let headersVal : Option (Option (List (String × String))) :=
            match pyLookup kvs "headers" with
            | Option.none => some Option.none
            | some .none => some Option.none
            | some v => (asStrDict v).map some
          let paramsVal : Option (Option (List (String × String))) :=
            match pyLookup kvs "query_params" with
            | Option.none => some Option.none
            | some .none => some Option.none
            | some v => (asStrDict v).map some
          let bodyVal : Option (Option PyVal) :=
            match pyLookup kvs "body" with
            | Option.none => some Option.none
            | some .none => some Option.none
            | some (.dict d) => some (some (.dict d))
            | some (.str s) => some (some (.str s))
            | some _ => Option.none
          match headersVal, paramsVal, bodyVal with
          | some hs, some ps, some b =>
              .ok { method := m, url := u, headers := hs, query_params := ps, body := b }
          | _, _, _ => .error (.validationError "invalid HTTPRequestSpec field")
      | _, _ => .error (.validationError "invalid HTTPRequestSpec method or url")
  | _ => .error (.typeError "argument after ** must be a mapping")

/-- Python truthiness of a value (`if response_spec.body`). -/
def pyTruthy : PyVal → Bool
  | .none => false
  | .bool b => b
  | .int n => n ≠ 0
  | .float q => q ≠ 0
  | .str s => s ≠ ""
  | .list xs => ¬ xs.isEmpty
  | .dict kvs => ¬ kvs.isEmpty
  | .baseModel _ => true

/-- Abridged Python `str()` rendering of a value.  The rendered text is
passed opaquely to the LLM collaborator in the formatting stage; no
verified property depends on it. -/
def pyStr : PyVal → String
  | .none => "None"
  | .bool b => if b then "True" else "False"
  | .int n => toString n
  | .float q => toString q
  | .str s => s
  | .list _ => "[list]"
  | .dict _ => "[dict]"
  | .baseModel t => t

/-- Rendering of the missing-ids list inside the stage-1 error message
(`f"Tools not found in registry: {missing_ids}"`); the Python list repr
quoting is omitted, which no verified property depends on. -/
def missingIdsText (ids : List String) : String :=
  "[" ++ String.intercalate ", " ids ++ "]"

/-- Stage-1 failure response of `execute_workflow`. -/
def toolRetrievalErrorResponse (missing : List String) : WorkflowResponse :=
  { status := "error",
    error := some ("Tools not found in registry: " ++ missingIdsText missing),
    error_stage := some "tool_retrieval" }

/-- Stage-3 failure response of `execute_workflow`. -/
def llmSelectionErrorResponse (e : PyExc) : WorkflowResponse :=
  { status := "error",
    error := some ("LLM selection error: " ++ e.message),
    error_stage := some "llm_selection" }

/-- Stage-4 failure response of `execute_workflow`. -/
def apiExecutionErrorResponse (e : PyExc) : WorkflowResponse :=
  { status := "error",
    error := some ("API execution error: " ++ e.message),
    error_stage := some "api_execution" }

/-- `WorkflowOrchestrator.execute_workflow`: the five-stage pipeline.
Stage 1 aborts with stage tag `tool_retrieval` on any missing id (the
fail branch returns before the later collaborators are consulted); stage
2 is total in the model (its per-tool handlers make it non-failing);
stage 3 covers the LLM call, the `http_spec` discriminator check and
spec parsing; stage 4 the HTTP execution; stage 5 runs only when
formatting was requested and swallows its own failures, leaving
`formatted_response` as `None`. -/
def executeWorkflow (env : WorkflowEnv) (req : WorkflowRequest) : WorkflowResponse :=
  let (foundTools, missingIds) := retrieveTools env req.tool_ids
  if ¬ missingIds.isEmpty then
    toolRetrievalErrorResponse missingIds
  else
    let toolsContext := formatToolsAsContext foundTools
    match env.promptMcp req.user_instructions toolsContext with
    | .error e => llmSelectionErrorResponse e
    | .ok pr =>
        if pr.kind ≠ "http_spec" then
          llmSelectionErrorResponse (.valueError ("Expected http_spec, got " ++ pr.kind))
        else
          match parseHTTPRequestSpec pr.content with
          | .error e => llmSelectionErrorResponse e
          | .ok spec =>
              let selected := extractToolNameFromSpec spec foundTools
              match env.httpExec spec with
              | .error e => apiExecutionErrorResponse e
              | .ok respSpec =>
                  let formatted : Option String :=
                    if req.format_response then
                      let rawText :=
                        if pyTruthy respSpec.body then pyStr respSpec.body
                        else "No response body"
                      match env.promptNormal
                          ("Format this API response in a human-readable way: " ++ rawText)
                          ("Original user request: " ++ req.user_instructions) with
                      | .ok s => some s
                      | .error _ => Option.none
                    else Option.none
                  { status := "success",
                    selected_tool := some selected,
                    http_spec := some spec,
                    raw_response := some respSpec,
                    formatted_response := formatted }

/- ===================================================================
   Concrete fixtures used by the witness and evaluation theorems
   =================================================================== -/

/-- A registered tool that echoes its required `msg` argument. -/
def echoTool : Tool :=
  { name := "echo_tool",
    description := "Echo the message argument",
    input_schema := .dict
      [("type", .str "object"),
       ("properties", .dict [("msg", .dict [("type", .str "string")])]),
       ("required", .list [.str "msg"])],
    output_schema := .dict [("type", .str "string")],
    run := fun a => .ok (pyGet a "msg") }

/-- A registered tool whose implementation always raises. -/
def throwTool : Tool :=
  { name := "throw_tool",
    description := "Implementation that always raises",
    input_schema := .dict [],
    output_schema := .dict [],
    run := fun _ => .error (.exc "boom") }

/-- Registry holding the two fixture tools, as `register` would store
them. -/
def witnessRegistry : ToolRegistry :=
  ⟨[("echo_tool", echoTool), ("throw_tool", throwTool)],
   [("echo_tool", baseToolDefinition echoTool),
    ("throw_tool", baseToolDefinition throwTool)]⟩

/-- A tool whose output schema declares a string but whose
implementation returns the integer 42. -/
def alwaysIntTool : Tool :=
  { name := "bad_output_tool",
    description := "Declares a string output but returns an int",
    input_schema := .dict [],
    output_schema := .dict [("type", .str "string")],
    run := fun _ => .ok (.int 42) }

/-- Registry holding only `alwaysIntTool`. -/
def outputMismatchRegistry : ToolRegistry :=
  ⟨[("bad_output_tool", alwaysIntTool)],
   [("bad_output_tool", baseToolDefinition alwaysIntTool)]⟩

/-- Process environment fixture for secret resolution. -/
def secretEnv : List (String × String) :=
  [("API_KEY", "sekret"), ("EMPTY_VAR", "")]

/-- Workflow request naming a tool id that no catalog contains. -/
def ghostReq : WorkflowRequest :=
  { user_instructions := "get data", tool_ids := ["ghost_tool"] }

/-- Workflow environment with an empty registry and no database
service; the LLM and HTTP collaborators are never reached. -/
def ghostEnv : WorkflowEnv :=
  { registry := ToolRegistry.empty,
    dbTools := Option.none,
    promptMcp := fun _ _ => .error (.exc "not consulted"),
    httpExec := fun _ => .error (.exc "not consulted"),
    promptNormal := fun _ _ => .error (.exc "not consulted") }

/-- HTTP spec content the fixture LLM emits. -/
def mcpSpecContent : PyVal :=
  .dict [("method", .str "GET"), ("url", .str "https://example.com/data")]

/-- Parsed form of `mcpSpecContent`. -/
def mcpSpecParsed : HTTPRequestSpec :=
  { method := "GET", url := "https://example.com/data" }

/-- Response the fixture HTTP execution returns. -/
def sampleRespSpec : HTTPResponseSpec :=
  { status_code := 200, body := .str "hi" }

/-- Workflow request asking for response formatting. -/
def formatFailReq : WorkflowRequest :=
  { user_instructions := "echo hi", tool_ids := ["echo_tool"],
    format_response := true }

/-- Workflow environment in which tool retrieval, LLM selection and API
execution succeed but the formatting LLM call fails. -/
def formatFailEnv : WorkflowEnv :=
  { registry := witnessRegistry,
    dbTools := Option.none,
    promptMcp := fun _ _ => .ok { content := mcpSpecContent, kind := "http_spec" },
    httpExec := fun _ => .ok sampleRespSpec,
    promptNormal := fun _ _ => .error (.exc "formatting model unavailable") }

/- ===================================================================
   Helper lemmas
   =================================================================== -/

theorem append_ne_empty_of_left (s t : String) (hs : s ≠ "") : s ++ t ≠ "" := by
  intro h
  apply hs
  have hd := congrArg String.data h
  rw [String.data_append] at hd
  have h1 : s.data = [] := (List.append_eq_nil.mp hd).1
  cases s with
  | mk d => cases h1; rfl

theorem lookup_mem_pairs {α : Type} (l : List (String × α)) (n : String) (a : α)
    (h : l.lookup n = some a) : (n, a) ∈ l := by
  induction l with
  | nil => simp at h
  | cons p rest ih =>
      obtain ⟨k, v⟩ := p
      by_cases hk : n = k
      · subst hk
        simp [List.lookup] at h
        subst h
        exact List.mem_cons_self _ _
      · have hb : (n == k) = false := by simp [hk]
        rw [List.lookup, hb] at h
        exact List.mem_cons_of_mem _ (ih h)

theorem keys_filter_ne {α : Type} (l : List (String × α)) (n : String) :
    ((l.filter fun p => p.1 ≠ n).map Prod.fst) =
      (l.map Prod.fst).filter (fun k => k ≠ n) := by
  induction l with
  | nil => rfl
  | cons p rest ih => by_cases h : p.1 = n <;> simpa [List.filter_cons, h] using ih

/- ===================================================================
   Claim theorems
   =================================================================== -/

/-- C1.  The specified retry bound does not hold: with the default
configuration `max_retries = 3` (so the claim requires `3 + 1 = 4`
attempts), a backend persistently returning HTTP 500 receives exactly 3
attempts — the tenacity decorator on `_execute_with_retry` hardcodes
`stop_after_attempt(3)` and never consults `self.max_retries`.  The 4xx
half of the claim does hold: a backend returning 404 receives exactly
one attempt and the response is returned as-is. -/
theorem http_retry_count_hardcoded :
    (∀ svc : HTTPClientService,
      attemptsMade svc (fun _ => .response 500) = 3 ∧
      (executeWithRetry svc (fun _ => .response 500)).1 = .error (.httpStatusError 500) ∧
      attemptsMade svc (fun _ => .response 404) = 1 ∧
      (executeWithRetry svc (fun _ => .response 404)).1 = .ok 404) ∧
    (⟨30, 3⟩ : HTTPClientService).max_retries + 1 = 4 :=
  ⟨fun _ => ⟨rfl, rfl, rfl, rfl⟩, rfl⟩

/-- C2.  An output-schema mismatch does fail the call, contrary to the
claim: for a tool declaring output type `string` whose implementation
returns the integer 42, the executor returns `success = false` with an
"Unexpected error" message and no data — the mismatch branch of
`_validate_outputs` evaluates `ValidationError(msg)`, whose pydantic v2
constructor itself raises a `TypeError` that the best-effort
`except ValidationError` handler does not catch. -/
theorem executor_output_mismatch_fails :
    (executorExecute outputMismatchRegistry "bad_output_tool" []).success = false ∧
    (executorExecute outputMismatchRegistry "bad_output_tool" []).data = PyVal.none ∧
    (executorExecute outputMismatchRegistry "bad_output_tool" []).error =
      some "Unexpected error: ValidationError cannot be constructed from a message string" :=
  ⟨rfl, rfl, rfl⟩

/-- C4.  The worked round-trip example of the specification fails on the
code: with `response_path = "Global Quote"`, the mapping sending `price`
to the response field named `05. price`, and body
`Global Quote ↦ (05. price ↦ "150.25")`, `_transform_response` produces
the empty output, not `price ↦ 150.25` — the response field name
contains a literal dot, so `split('.')` cuts it into `05` and ` price`
and the lookup of key `05` misses.  (The coercion rules of
`_convert_type` themselves are embedded in `convertType` and are never
reached here.) -/
theorem transform_round_trip_yields_empty :
    transformResponse stockQuoteCfg stockQuoteBody = .ok [] ∧
    ([] : List (String × PyVal)) ≠ [("price", PyVal.float 150.25)] :=
  ⟨rfl, by simp⟩

/-- C9.  Secret resolution behaves as specified: a reference of the
env-interpolation form resolves to the variable's value when set and
non-empty, degrades to the empty string when the variable is unset or
empty, a non-empty reference not of that form is returned unchanged as a
literal secret, and a `None` or empty reference yields the empty
string. -/
theorem resolve_secret_cases (env : List (String × String)) (name : String) :
    (∀ v, envGet env name = some v → v ≠ "" →
      resolveSecret env (some ("$\x7b" ++ name ++ "\x7d")) = v) ∧
    (envGet env name = Option.none →
      resolveSecret env (some ("$\x7b" ++ name ++ "\x7d")) = "") ∧
    (envGet env name = some "" →
      resolveSecret env (some ("$\x7b" ++ name ++ "\x7d")) = "") ∧
    (∀ s : String, s ≠ "" →
      ¬(pyStartsWith s "$\x7b" = true ∧ pyEndsWith s "\x7d" = true) →
      resolveSecret env (some s) = s) ∧
    resolveSecret env Option.none = "" ∧
    resolveSecret env (some "") = "" := by
  have hdata : ("$\x7b" ++ name ++ "\x7d").data = '$' :: '{' :: (name.data ++ ['}']) := by
    rw [String.data_append, String.data_append]
    rfl
  have hne : ("$\x7b" ++ name ++ "\x7d") ≠ "" := by
    intro h
    have := congrArg String.data h
    rw [hdata] at this
    simp at this
  have hstart : pyStartsWith ("$\x7b" ++ name ++ "\x7d") "$\x7b" = true := by
    simp only [pyStartsWith]
    rw [hdata]
    simp [List.isPrefixOf]
  have hend : pyEndsWith ("$\x7b" ++ name ++ "\x7d") "\x7d" = true := by
    simp only [pyEndsWith]
    rw [hdata]
    exact List.isSuffixOf_iff_suffix.mpr ⟨'$' :: '{' :: name.data, by simp⟩
  have henv : pyDropRight (pyDrop ("$\x7b" ++ name ++ "\x7d") 2) 1 = name := by
    simp only [pyDrop, pyDropRight]
    rw [hdata]
    have h1 : (('$' :: '{' :: (name.data ++ ['}'])) : List Char).drop 2 =
        name.data ++ ['}'] := rfl
    rw [h1]
    have h2 : ((name.data ++ ['}']).take ((name.data ++ ['}']).length - 1)) =
        name.data := by
      have hlen : (name.data ++ ['}']).length - 1 = name.data.length := by
        simp
      rw [hlen]
      exact List.take_left _ _
    rw [h2]
  have hcond : (pyStartsWith ("$\x7b" ++ name ++ "\x7d") "$\x7b" &&
      pyEndsWith ("$\x7b" ++ name ++ "\x7d") "\x7d") = true := by
    rw [hstart, hend]
    rfl
  have hmain : resolveSecret env (some ("$\x7b" ++ name ++ "\x7d")) =
      (match envGet env name with
       | Option.none => ""
       | some v => if v = "" then "" else v) := by
    simp only [resolveSecret]
    rw [if_neg hne, if_pos hcond, henv]
  refine ⟨?_, ?_, ?_, ?_, rfl, rfl⟩
  · intro v hv hvne
    rw [hmain, hv]
    simp [hvne]
  · intro hv
    rw [hmain, hv]
  · intro hv
    rw [hmain, hv]
    simp
  · intro s hsne hnotform
    have hb : (pyStartsWith s "$\x7b" && pyEndsWith s "\x7d") = false := by
      cases hp : pyStartsWith s "$\x7b" with
      | false => simp
      | true =>
          cases he : pyEndsWith s "\x7d" with
          | false => simp
          | true => exact absurd ⟨hp, he⟩ hnotform
    simp only [resolveSecret]
    rw [if_neg hsne, if_neg (by simp [hb])]

/-- C9 witness: concrete resolutions against the fixture environment. -/
theorem resolve_secret_cases_witness :
    resolveSecret secretEnv (some ("$\x7b" ++ "API_KEY" ++ "\x7d")) = "sekret" ∧
    resolveSecret secretEnv (some ("$\x7b" ++ "MISSING_VAR" ++ "\x7d")) = "" ∧
    resolveSecret secretEnv (some ("$\x7b" ++ "EMPTY_VAR" ++ "\x7d")) = "" ∧
    resolveSecret secretEnv (some "literal-token") = "literal-token" ∧
    resolveSecret secretEnv Option.none = "" ∧
    resolveSecret secretEnv (some "") = "" := by
  refine ⟨?_, ?_, ?_, ?_, ?_, ?_⟩
  · exact (resolve_secret_cases secretEnv "API_KEY").1 "sekret" rfl (by decide)
  · exact (resolve_secret_cases secretEnv "MISSING_VAR").2.1 rfl
  · exact (resolve_secret_cases secretEnv "EMPTY_VAR").2.2.1 rfl
  · exact (resolve_secret_cases secretEnv "API_KEY").2.2.2.1 "literal-token"
      (by decide) (by decide)
  · exact (resolve_secret_cases secretEnv "API_KEY").2.2.2.2.1
  · exact (resolve_secret_cases secretEnv "API_KEY").2.2.2.2.2

theorem getMultiple_missing_iff (reg : ToolRegistry) :
    ∀ (names : List String) (n : String),
      n ∈ (reg.getMultiple names).2 ↔
        (n ∈ names ∧ reg.tools.lookup n = Option.none) := by
  intro names
  induction names with
  | nil => intro n; simp [ToolRegistry.getMultiple]
  | cons m rest ih =>
      intro n
      cases h : reg.tools.lookup m with
      | some t =>
          simp only [ToolRegistry.getMultiple, h]
          rw [ih n]
          constructor
          · rintro ⟨hn, hl⟩
            exact ⟨List.mem_cons_of_mem _ hn, hl⟩
          · rintro ⟨hn, hl⟩
            rcases List.mem_cons.mp hn with rfl | hn2
            · rw [h] at hl
              cases hl
            · exact ⟨hn2, hl⟩
      | none =>
          simp only [ToolRegistry.getMultiple, h]
          constructor
          · intro hmem
            rcases List.mem_cons.mp hmem with rfl | hn2
            · exact ⟨List.mem_cons_self _ _, h⟩
            · obtain ⟨ha, hb⟩ := (ih n).mp hn2
              exact ⟨List.mem_cons_of_mem _ ha, hb⟩
          · rintro ⟨hn, hl⟩
            rcases List.mem_cons.mp hn with rfl | hn2
            · exact List.mem_cons_self _ _
            · exact List.mem_cons_of_mem _ ((ih n).mpr ⟨hn2, hl⟩)

theorem getMultiple_found_name_iff (reg : ToolRegistry)
    (hwf : ∀ p ∈ reg.tools, (p.2).name = p.1) :
    ∀ (names : List String) (n : String),
      n ∈ ((reg.getMultiple names).1.map Tool.name) ↔
        (n ∈ names ∧ (reg.tools.lookup n).isSome) := by
  intro names
  induction names with
  | nil => intro n; simp [ToolRegistry.getMultiple]
  | cons m rest ih =>
      intro n
      cases h : reg.tools.lookup m with
      | some t =>
          have htname : t.name = m := hwf (m, t) (lookup_mem_pairs _ _ _ h)
          simp only [ToolRegistry.getMultiple, h, List.map_cons, List.mem_cons]
          rw [ih n, htname]
          constructor
          · rintro (rfl | ⟨hn, hs⟩)
            · exact ⟨Or.inl rfl, by rw [h]; rfl⟩
            · exact ⟨Or.inr hn, hs⟩
          · rintro ⟨hn, hs⟩
            rcases hn with rfl | hn2
            · exact Or.inl rfl
            · exact Or.inr ⟨hn2, hs⟩
      | none =>
          simp only [ToolRegistry.getMultiple, h]
          rw [ih n]
          constructor
          · rintro ⟨hn, hs⟩
            exact ⟨List.mem_cons_of_mem _ hn, hs⟩
          · rintro ⟨hn, hs⟩
            rcases List.mem_cons.mp hn with rfl | hn2
            · rw [h] at hs
              cases hs
            · exact ⟨hn2, hs⟩

/-- C5.  Partial batch lookup is a partition of the requested names: the
names of the found tools together with the missing names are exactly the
requested names, and no name is reported as both found and missing.
(`hwf` states that every stored implementation is keyed by its own name,
the invariant `register` maintains.) -/
theorem get_multiple_partition (reg : ToolRegistry) (names : List String)
    (hwf : ∀ p ∈ reg.tools, (p.2).name = p.1) :
    (∀ n, n ∈ names ↔
      (n ∈ ((reg.getMultiple names).1.map Tool.name) ∨
       n ∈ (reg.getMultiple names).2)) ∧
    (∀ n, ¬(n ∈ ((reg.getMultiple names).1.map Tool.name) ∧
            n ∈ (reg.getMultiple names).2)) := by
  constructor
  · intro n
    rw [getMultiple_found_name_iff reg hwf names n, getMultiple_missing_iff reg names n]
    constructor
    · intro hn
      cases h : reg.tools.lookup n with
      | some t => exact Or.inl ⟨hn, rfl⟩
      | none => exact Or.inr ⟨hn, rfl⟩
    · rintro (⟨hn, _⟩ | ⟨hn, _⟩) <;> exact hn
  · rintro n ⟨hf, hm⟩
    rw [getMultiple_found_name_iff reg hwf names n] at hf
    rw [getMultiple_missing_iff reg names n] at hm
    rw [hm.2] at hf
    cases hf.2

/-- C5 witness: partition of a concrete request against the fixture
registry (one present name, one absent name). -/
theorem get_multiple_partition_witness :
    (∀ n, n ∈ ["echo_tool", "ghost"] ↔
      (n ∈ ((witnessRegistry.getMultiple ["echo_tool", "ghost"]).1.map Tool.name) ∨
       n ∈ (witnessRegistry.getMultiple ["echo_tool", "ghost"]).2)) ∧
    (∀ n, ¬(n ∈ ((witnessRegistry.getMultiple ["echo_tool", "ghost"]).1.map Tool.name) ∧
            n ∈ (witnessRegistry.getMultiple ["echo_tool", "ghost"]).2)) := by
  have hwf : ∀ p ∈ witnessRegistry.tools, (p.2).name = p.1 := by
    intro p hp
    simp [witnessRegistry] at hp
    rcases hp with h | h <;> subst h <;> rfl
  exact get_multiple_partition witnessRegistry ["echo_tool", "ghost"] hwf

/-- C6.  Registering under an already-present name fails with a
`ToolRegistrationError` and leaves the registry unchanged, which (under
key uniqueness) still holds exactly one entry for that name; an argument
of neither supported shape is also rejected with a
`ToolRegistrationError`. -/
theorem register_duplicate_or_invalid (reg : ToolRegistry) (obj : ToolObj) (N : String)
    (hname : obj.regName = some N)
    (hdup : (reg.tools.lookup N).isSome = true)
    (hnodup : (reg.tools.map Prod.fst).Nodup) :
    (∃ msg, reg.register obj = .error (.toolRegistrationError msg)) ∧
    RegOp.apply reg (.register obj) = reg ∧
    (reg.tools.map Prod.fst).count N = 1 ∧
    (∀ r : ToolRegistry, r.register .other =
      .error (.toolRegistrationError
        "Tool must be either a decorated function or implement BaseTool protocol")) := by
  have herr : ∃ msg, reg.register obj = .error (.toolRegistrationError msg) := by
    cases obj with
    | decorated d run =>
        have hd : d.name = N := by simpa [ToolObj.regName] using hname
        refine ⟨"Tool " ++ d.name ++ " already registered", ?_⟩
        simp [ToolRegistry.register, hd, hdup]
    | base t =>
        have hd : t.name = N := by simpa [ToolObj.regName] using hname
        refine ⟨"Tool " ++ t.name ++ " already registered", ?_⟩
        simp [ToolRegistry.register, hd, hdup]
    | other => simp [ToolObj.regName] at hname
  obtain ⟨msg, hmsg⟩ := herr
  refine ⟨⟨msg, hmsg⟩, ?_, ?_, fun r => rfl⟩
  · simp [RegOp.apply, hmsg]
  · have hNmem : N ∈ reg.tools.map Prod.fst := by
      obtain ⟨t, ht⟩ := Option.isSome_iff_exists.mp hdup
      exact List.mem_map_of_mem Prod.fst (lookup_mem_pairs _ _ _ ht)
    exact List.count_eq_one_of_mem hnodup hNmem

/-- C6 witness: re-registering the echo tool (same name) against the
fixture registry fails and the registry is unchanged with one entry. -/
theorem register_duplicate_or_invalid_witness :
    (∃ msg, witnessRegistry.register (.base echoTool) =
      .error (.toolRegistrationError msg)) ∧
    RegOp.apply witnessRegistry (.register (.base echoTool)) = witnessRegistry ∧
    (witnessRegistry.tools.map Prod.fst).count "echo_tool" = 1 ∧
    (∀ r : ToolRegistry, r.register .other =
      .error (.toolRegistrationError
        "Tool must be either a decorated function or implement BaseTool protocol")) :=
  register_duplicate_or_invalid witnessRegistry (.base echoTool) "echo_tool"
    rfl rfl (by decide)

theorem apply_preserves_keys (reg : ToolRegistry) (op : RegOp)
    (h : reg.tools.map Prod.fst = reg.definitions.map Prod.fst) :
    (RegOp.apply reg op).tools.map Prod.fst =
      (RegOp.apply reg op).definitions.map Prod.fst := by
  cases op with
  | register obj =>
      cases obj with
      | decorated d run =>
          by_cases hd : (reg.tools.lookup d.name).isSome
          · simp [RegOp.apply, ToolRegistry.register, hd, h]
          · simp [RegOp.apply, ToolRegistry.register, hd, h]
      | base t =>
          by_cases hd : (reg.tools.lookup t.name).isSome
          · simp [RegOp.apply, ToolRegistry.register, hd, h]
          · simp [RegOp.apply, ToolRegistry.register, hd, h]
      | other => simpa [RegOp.apply, ToolRegistry.register] using h
  | unregister n =>
      by_cases hd : (reg.tools.lookup n).isSome
      · have step : RegOp.apply reg (.unregister n) =
            ⟨reg.tools.filter (fun p => p.1 ≠ n),
             reg.definitions.filter (fun p => p.1 ≠ n)⟩ := by
          simp [RegOp.apply, ToolRegistry.unregister, hd]
        rw [step]
        show (reg.tools.filter (fun p => p.1 ≠ n)).map Prod.fst =
          (reg.definitions.filter (fun p => p.1 ≠ n)).map Prod.fst
        rw [keys_filter_ne, keys_filter_ne, h]
      · simp [RegOp.apply, ToolRegistry.unregister, hd, h]
  | clear => rfl
  | query => exact h

/-- C10.  After any sequence of registry operations starting from the
empty registry, the key list of the `_tools` map equals the key list of
the `_definitions` map (so every registered name has exactly one stored
definition and the read-only queries are mutually consistent). -/
theorem registry_maps_key_sync (ops : List RegOp) :
    (runRegOps ops).tools.map Prod.fst = (runRegOps ops).definitions.map Prod.fst := by
  have main : ∀ (ops2 : List RegOp) (reg : ToolRegistry),
      reg.tools.map Prod.fst = reg.definitions.map Prod.fst →
      (ops2.foldl RegOp.apply reg).tools.map Prod.fst =
        (ops2.foldl RegOp.apply reg).definitions.map Prod.fst := by
    intro ops2
    induction ops2 with
    | nil => intro reg h; exact h
    | cons op rest ih =>
        intro reg h
        exact ih _ (apply_preserves_keys reg op h)
  exact main ops ToolRegistry.empty rfl

theorem mapOutput_lookup_none_of_not_mem (cfg : ApiToolConfig) (data : PyVal) :
    ∀ (m : List (String × String)) (k : String), k ∉ m.map Prod.fst →
      (mapOutputFields cfg data m).lookup k = Option.none := by
  intro m
  induction m with
  | nil => intro k _; rfl
  | cons p rest ih =>
      intro k hk
      obtain ⟨a, b⟩ := p
      have hka : k ≠ a := by
        intro hcontra
        exact hk (by rw [hcontra]; exact List.mem_cons_self _ _)
      have hkrest : k ∉ rest.map Prod.fst := by
        intro hcontra
        exact hk (List.mem_cons_of_mem _ hcontra)
      by_cases hv : (descendField data (pySplit b '.')).isNotNone = true
      · rw [mapOutputFields, if_pos hv]
        have hb : (k == a) = false := by simp [hka]
        rw [List.lookup, hb]
        exact ih k hkrest
      · rw [mapOutputFields, if_neg hv]
        exact ih k hkrest

theorem mapOutput_lookup_none (cfg : ApiToolConfig) (data : PyVal) :
    ∀ (m : List (String × String)) (of rf : String),
      (m.map Prod.fst).Nodup → (of, rf) ∈ m →
      descendField data (pySplit rf '.') = PyVal.none →
      (mapOutputFields cfg data m).lookup of = Option.none := by
  intro m
  induction m with
  | nil => intro of rf _ hmem _; simp at hmem
  | cons p rest ih =>
      intro of rf hnodup hmem hmiss
      obtain ⟨a, b⟩ := p
      have hnr := List.nodup_cons.mp hnodup
      rcases List.mem_cons.mp hmem with heq | hmem2
      · cases heq
        have hv : ¬((descendField data (pySplit rf '.')).isNotNone = true) := by
          rw [hmiss]
          simp [PyVal.isNotNone]
        rw [mapOutputFields, if_neg hv]
        exact mapOutput_lookup_none_of_not_mem cfg data rest of hnr.1
      · have haof : (of == a) = false := by
          have : a ≠ of := by
            intro hcontra
            apply hnr.1
            rw [hcontra]
            have hof : Prod.fst (of, rf) ∈ rest.map Prod.fst :=
              List.mem_map_of_mem Prod.fst hmem2
            exact hof
          simp [Ne.symm this]
        by_cases hv : (descendField data (pySplit b '.')).isNotNone = true
        · rw [mapOutputFields, if_pos hv, List.lookup, haof]
          exact ih of rf hnr.2 hmem2 hmiss
        · rw [mapOutputFields, if_neg hv]
          exact ih of rf hnr.2 hmem2 hmiss

/-- C8.  A mapped response field whose dot-separated path does not
resolve inside the working object is simply omitted from the produced
output, and the transformation still succeeds: the produced output has
no entry under that output field, and no error is raised. -/
theorem transform_missing_field_omitted (cfg : ApiToolConfig) (body data : PyVal)
    (outputField responseField : String)
    (hnodup : (cfg.mapping.response_to_output.map Prod.fst).Nodup)
    (hmem : (outputField, responseField) ∈ cfg.mapping.response_to_output)
    (hwork : workingObject cfg body = .ok data)
    (hmiss : descendField data (pySplit responseField '.') = PyVal.none) :
    transformResponse cfg body =
      .ok (mapOutputFields cfg data cfg.mapping.response_to_output) ∧
    (mapOutputFields cfg data cfg.mapping.response_to_output).lookup outputField =
      Option.none := by
  constructor
  · rw [transformResponse, hwork]
  · exact mapOutput_lookup_none cfg data _ outputField responseField hnodup hmem hmiss

/-- C8 witness: the Alpha Vantage fixture, where the path `05. price`
splits at its literal dot and fails to resolve, so `price` is omitted
while the transformation succeeds. -/
theorem transform_missing_field_omitted_witness :
    transformResponse stockQuoteCfg stockQuoteBody =
      .ok (mapOutputFields stockQuoteCfg (.dict [("05. price", .str "150.25")])
            stockQuoteCfg.mapping.response_to_output) ∧
    (mapOutputFields stockQuoteCfg (.dict [("05. price", .str "150.25")])
        stockQuoteCfg.mapping.response_to_output).lookup "price" = Option.none :=
  transform_missing_field_omitted stockQuoteCfg stockQuoteBody
    (.dict [("05. price", .str "150.25")]) "price" "05. price"
    (by decide) (by decide) rfl rfl

theorem executeInner_ok_name (reg : ToolRegistry) (toolName : String)
    (args : List (String × PyVal)) (r : ToolResult)
    (h : executeInner reg toolName args = .ok r) : r.tool_name = toolName := by
  unfold executeInner at h
  repeat' split at h
  all_goals cases h
  all_goals rfl

/-- C3.  The executor never raises and tags the failure cases: its
result always carries the requested tool name (the outer handler makes
`executorExecute` a total function, which is the never-raises
guarantee), and for an unknown tool name, for arguments rejected by
input validation, and for an implementation that itself raises, the
result has `success = false` with a non-empty error message. -/
theorem executor_never_raises (reg : ToolRegistry) (toolName : String)
    (args : List (String × PyVal)) :
    (executorExecute reg toolName args).tool_name = toolName ∧
    (reg.tools.lookup toolName = Option.none →
      (executorExecute reg toolName args).success = false ∧
      ∃ m, (executorExecute reg toolName args).error = some m ∧ m ≠ "") ∧
    (∀ tool toolDef m, reg.tools.lookup toolName = some tool →
      reg.definitions.lookup toolName = some toolDef →
      validateInputs toolDef.input_schema args = .error (.validationError m) →
      (executorExecute reg toolName args).success = false ∧
      ∃ m2, (executorExecute reg toolName args).error = some m2 ∧ m2 ≠ "") ∧
    (∀ tool toolDef validatedArgs e, reg.tools.lookup toolName = some tool →
      reg.definitions.lookup toolName = some toolDef →
      validateInputs toolDef.input_schema args = .ok validatedArgs →
      tool.run validatedArgs = .error e →
      (executorExecute reg toolName args).success = false ∧
      ∃ m3, (executorExecute reg toolName args).error = some m3 ∧ m3 ≠ "") := by
  refine ⟨?_, ?_, ?_, ?_⟩
  · cases hinner : executeInner reg toolName args with
    | error e => simp [executorExecute, hinner, failResult]
    | ok r =>
        have := executeInner_ok_name reg toolName args r hinner
        simp [executorExecute, hinner, this]
  · intro hnone
    have hinner : executeInner reg toolName args =
        .error (.toolRegistrationError ("Tool " ++ toolName ++ " not found")) := by
      simp only [executeInner, ToolRegistry.get, hnone]
    refine ⟨by simp [executorExecute, hinner, failResult],
      "Unexpected error: " ++ ("Tool " ++ toolName ++ " not found"),
      by simp [executorExecute, hinner, failResult, PyExc.message],
      append_ne_empty_of_left _ _ (by decide)⟩
  · intro tool toolDef m hta htd hval
    have hinner : executeInner reg toolName args =
        .ok (failResult toolName ("Input validation error: " ++ m)) := by
      simp only [executeInner, ToolRegistry.get, ToolRegistry.getDefinition, hta, htd,
        hval]
    refine ⟨by simp [executorExecute, hinner, failResult],
      "Input validation error: " ++ m,
      by simp [executorExecute, hinner, failResult],
      append_ne_empty_of_left _ _ (by decide)⟩
  · intro tool toolDef validatedArgs e hta htd hval hrun
    have hinner : executeInner reg toolName args =
        .ok (failResult toolName ("Execution error: " ++ e.message)) := by
      simp only [executeInner, ToolRegistry.get, ToolRegistry.getDefinition, hta, htd,
        hval, hrun]
    refine ⟨by simp [executorExecute, hinner, failResult],
      "Execution error: " ++ e.message,
      by simp [executorExecute, hinner, failResult],
      append_ne_empty_of_left _ _ (by decide)⟩

/-- C3 witness: a missing tool name, a call missing a required argument,
and a raising implementation, each against the fixture registry. -/
theorem executor_never_raises_witness :
    ((executorExecute witnessRegistry "missing_tool" []).success = false ∧
      ∃ m, (executorExecute witnessRegistry "missing_tool" []).error = some m ∧ m ≠ "") ∧
    ((executorExecute witnessRegistry "echo_tool" []).success = false ∧
      ∃ m, (executorExecute witnessRegistry "echo_tool" []).error = some m ∧ m ≠ "") ∧
    ((executorExecute witnessRegistry "throw_tool" []).success = false ∧
      ∃ m, (executorExecute witnessRegistry "throw_tool" []).error = some m ∧ m ≠ "") := by
  refine ⟨?_, ?_, ?_⟩
  · exact (executor_never_raises witnessRegistry "missing_tool" []).2.1 rfl
  · exact (executor_never_raises witnessRegistry "echo_tool" []).2.2.1 echoTool
      (baseToolDefinition echoTool) "Field required: msg" rfl rfl rfl
  · exact (executor_never_raises witnessRegistry "throw_tool" []).2.2.2 throwTool
      (baseToolDefinition throwTool) [] (.exc "boom") rfl rfl rfl rfl

/-- C7.  Workflow stage tagging, both halves of the claim: any missing
requested tool identifier aborts the run with `status = "error"` and
`error_stage = "tool_retrieval"`, the result being fully determined by
the retrieval outcome (so the later collaborators are not consulted);
and when retrieval, LLM selection and API execution succeed but the
requested formatting call fails, the run still returns
`status = "success"` with the raw response present and
`formatted_response = None`. -/
theorem workflow_stage_tagging (env : WorkflowEnv) (req : WorkflowRequest) :
    (∀ found missing, retrieveTools env req.tool_ids = (found, missing) →
      missing ≠ [] →
      executeWorkflow env req = toolRetrievalErrorResponse missing) ∧
    (∀ found pr spec resp e,
      retrieveTools env req.tool_ids = (found, []) →
      env.promptMcp req.user_instructions (formatToolsAsContext found) = .ok pr →
      pr.kind = "http_spec" →
      parseHTTPRequestSpec pr.content = .ok spec →
      env.httpExec spec = .ok resp →
      req.format_response = true →
      env.promptNormal
        ("Format this API response in a human-readable way: " ++
          (if pyTruthy resp.body then pyStr resp.body else "No response body"))
        ("Original user request: " ++ req.user_instructions) = .error e →
      executeWorkflow env req =
        { status := "success",
          selected_tool := some (extractToolNameFromSpec spec found),
          http_spec := some spec,
          raw_response := some resp,
          formatted_response := Option.none }) := by
  constructor
  · intro found missing hret hne
    have hemp : missing.isEmpty = false := by
      cases missing with
      | nil => exact absurd rfl hne
      | cons a l => rfl
    simp only [executeWorkflow, hret, hemp]
    simp
  · intro found pr spec resp e hret hmcp hkind hparse hhttp hfmt hnorm
    simp only [executeWorkflow, hret, hmcp, hkind, hparse, hhttp, hfmt, hnorm]
    simp [hkind]

/-- C7 witness: a request for a nonexistent tool id against the empty
catalog, and a formatting-failure run against the fixture registry. -/
theorem workflow_stage_tagging_witness :
    executeWorkflow ghostEnv ghostReq = toolRetrievalErrorResponse ["ghost_tool"] ∧
    executeWorkflow formatFailEnv formatFailReq =
      { status := "success",
        selected_tool := some (extractToolNameFromSpec mcpSpecParsed
          [FoundTool.registryTool echoTool]),
        http_spec := some mcpSpecParsed,
        raw_response := some sampleRespSpec,
        formatted_response := Option.none } := by
  constructor
  · exact (workflow_stage_tagging ghostEnv ghostReq).1 [] ["ghost_tool"] rfl (by simp)
  · exact (workflow_stage_tagging formatFailEnv formatFailReq).2
      [FoundTool.registryTool echoTool]
      { content := mcpSpecContent, kind := "http_spec" }
      mcpSpecParsed sampleRespSpec (.exc "formatting model unavailable")
      rfl rfl rfl rfl rfl rfl rfl
